import Mathlib

/-!
A verification development for the Checkmic real-time audio analyzer
(`audio_analyzer.py`).  The per-frame classification pipeline (silence /
level / clarity stages), the debounce state machine of the analysis worker
loop, and the producer-side frame queue are embedded shallowly:

* timestamps, dB values and band energies are rational numbers (the
  classifier only compares them, so any linear ordered field is faithful);
  the spectral-clarity stage is stated over an arbitrary linear ordered
  field so that the same definition can be instantiated at `ℝ` where the
  discrete Fourier transform of the metric engine lives;
* Python's fallible float division (which raises `ZeroDivisionError`)
  is embedded as an `Except String` computation;
* the worker loop is a step function over an explicit state
  (`silent_stream_start_time`, `current_ui_status`, `potential_new_status`,
  `potential_status_start_time`) producing the list of `status_callback`
  invocations and of console lines per processed item.
-/

namespace Checkmic

/-- The closed set of UI status strings produced by `audio_analyzer.py`
(`current_ui_status` / `raw_chunk_status` values, plus the initial
`"INITIALIZING"`). -/
inductive Status where
  | INITIALIZING
  | CHECK_PROFILE
  | TOO_QUIET
  | TOO_LOUD
  | GOOD
  | MUFFLED
  | TINNY
  deriving DecidableEq, Repr, Fintype

/-- The Python string value of each status, as passed to `status_callback`. -/
def statusMsg : Status → String
  | Status.INITIALIZING => "INITIALIZING"
  | Status.CHECK_PROFILE => "CHECK PROFILE"
  | Status.TOO_QUIET => "TOO QUIET"
  | Status.TOO_LOUD => "TOO LOUD"
  | Status.GOOD => "GOOD"
  | Status.MUFFLED => "MUFFLED"
  | Status.TINNY => "TINNY"

/-- `AudioAnalyzer.LOUD_DB_THRESHOLD = -9.0`. -/
def LOUD_DB_THRESHOLD : ℚ := -9

/-- `AudioAnalyzer.QUIET_DB_THRESHOLD = -20.0`. -/
def QUIET_DB_THRESHOLD : ℚ := -20

/-- `AudioAnalyzer.SILENT_STREAM_THRESHOLD_DB = -60.0`. -/
def SILENT_STREAM_THRESHOLD_DB : ℚ := -60

/-- `AudioAnalyzer.SILENT_STREAM_DURATION_S = 3`. -/
def SILENT_STREAM_DURATION_S : ℚ := 3

/-- `AudioAnalyzer.PERSISTENCE_ATTACK = 0.1`. -/
def PERSISTENCE_ATTACK : ℚ := 0.1

/-- `AudioAnalyzer.PERSISTENCE_DECAY = 3`. -/
def PERSISTENCE_DECAY : ℚ := 3

/-- `AudioAnalyzer.PERSISTENCE_NORMAL = 1.0`. -/
def PERSISTENCE_NORMAL : ℚ := 1.0

/-- `AudioAnalyzer.CLARITY_THRESHOLDS["muffled_high_percent"] = 0.04`,
stated over an arbitrary linear ordered field so the clarity stage can be
used both at `ℚ` and at `ℝ`. -/
def muffledHighPercent (α : Type) [LinearOrderedField α] : α := 4 / 100

/-- `AudioAnalyzer.CLARITY_THRESHOLDS["tinny_low_percent"] = 0.10`. -/
def tinnyLowPercent (α : Type) [LinearOrderedField α] : α := 10 / 100

/-- `AudioAnalyzer.DEBUG_CLARITY = True` (line 18 of `audio_analyzer.py`). -/
def DEBUG_CLARITY : Bool := true

deriving instance DecidableEq for Except

/-- Python float division: raises `ZeroDivisionError` on a zero divisor,
embedded as `Except.error "float division by zero"`. -/
def fdiv {α : Type} [LinearOrderedField α] (a b : α) : Except String α :=
  if b = 0 then Except.error "float division by zero" else Except.ok (a / b)

/-- Silence-duration stage, lines 110-114 of `audio_analyzer.py`:
given `silent_stream_start_time` (`none` once cleared), the frame dB and
the current time, returns the updated `silent_stream_start_time` and
whether `raw_chunk_status` was set to `"CHECK PROFILE"`.

```python
if self.silent_stream_start_time is not None:
    if db > self.SILENT_STREAM_THRESHOLD_DB:
        self.silent_stream_start_time = None
    elif time.time() - self.silent_stream_start_time > self.SILENT_STREAM_DURATION_S:
        raw_chunk_status = "CHECK PROFILE"
``` -/
def silenceStep (st : Option ℚ) (db now : ℚ) : Option ℚ × Bool :=
  match st with
  | none => (none, false)
  | some t0 =>
      if SILENT_STREAM_THRESHOLD_DB < db then (none, false)
      else if SILENT_STREAM_DURATION_S < now - t0 then (some t0, true)
      else (some t0, false)

/-- Spectral clarity stage, lines 126-174 of `audio_analyzer.py`, given the
three band energies produced by the metric engine
(`energy["low"], energy["mid"], energy["high"]`).  When
`total_energy > 0` and `DEBUG_CLARITY` is set, the code only collects
debug samples and prints averaged percentages; the label is left `"GOOD"`
(the debug bookkeeping touches no classification state and is omitted).
Only in the `else` ("NORMAL OPERATION LOGIC") branch are
`low_percent`/`high_percent` computed and the `MUFFLED`/`TINNY` relabels
applied.  The divisions use `fdiv` because Python division raises on a
zero divisor. -/
def clarityStage {α : Type} [LinearOrderedField α] (debug : Bool)
    (eLow eMid eHigh : α) : Except String Status :=
  let total := eLow + eMid + eHigh
  if 0 < total then
    if debug then Except.ok Status.GOOD
    else do
      let lowPct ← fdiv eLow total
      let highPct ← fdiv eHigh total
      if highPct < muffledHighPercent α then Except.ok Status.MUFFLED
      else if lowPct < tinnyLowPercent α then Except.ok Status.TINNY
      else Except.ok Status.GOOD
  else Except.ok Status.GOOD

/-- The full per-chunk raw classification, lines 109-174 of
`audio_analyzer.py`: silence-duration stage, then the level stage
(`db < QUIET → TOO QUIET`, `db > LOUD → TOO LOUD`, else `GOOD`), then the
spectral clarity stage on `GOOD` chunks.  Returns the updated
`silent_stream_start_time` and the `raw_chunk_status` (an `Except`, since
the clarity stage contains divisions). -/
def classifyChunk (silSt : Option ℚ) (now db eLow eMid eHigh : ℚ)
    (debug : Bool) : Option ℚ × Except String Status :=
  let s := silenceStep silSt db now
  if s.2 then (s.1, Except.ok Status.CHECK_PROFILE)
  else if db < QUIET_DB_THRESHOLD then (s.1, Except.ok Status.TOO_QUIET)
  else if LOUD_DB_THRESHOLD < db then (s.1, Except.ok Status.TOO_LOUD)
  else (s.1, clarityStage debug eLow eMid eHigh)


/-- The debounce state carried by the worker loop, lines 89-91:
`current_ui_status`, `potential_new_status`, `potential_status_start_time`. -/
structure DState where
  current : Status
  candidate : Status
  candidateSince : ℚ
  deriving DecidableEq, Repr

/-- The transition-dependent persistence duration, lines 180-185:

```python
persistence_needed = self.PERSISTENCE_NORMAL
if (current_ui_status == "TOO QUIET" and potential_new_status == "GOOD") or \
   (current_ui_status == "GOOD" and potential_new_status == "TOO LOUD"):
    persistence_needed = self.PERSISTENCE_ATTACK
elif current_ui_status == "GOOD" and potential_new_status == "TOO QUIET":
    persistence_needed = self.PERSISTENCE_DECAY
``` -/
def persistenceNeeded (cur pot : Status) : ℚ :=
  if (cur = Status.TOO_QUIET ∧ pot = Status.GOOD) ∨
     (cur = Status.GOOD ∧ pot = Status.TOO_LOUD) then PERSISTENCE_ATTACK
  else if cur = Status.GOOD ∧ pot = Status.TOO_QUIET then PERSISTENCE_DECAY
  else PERSISTENCE_NORMAL

/-- One step of the debounce state machine, lines 176-193 of
`audio_analyzer.py`.  `tReset` is the `time.time()` of line 178 (candidate
reset) and `tCheck` the `time.time()` of line 187 (commit check); in the
source both happen inside the same loop iteration, microseconds apart.
Returns the new state and whether a status change was committed. -/
def debounceStep (s : DState) (raw : Status) (tReset tCheck : ℚ) : DState × Bool :=
  let s1 : DState :=
    if raw ≠ s.candidate then ⟨s.current, raw, tReset⟩ else s
  if persistenceNeeded s1.current s1.candidate ≤ tCheck - s1.candidateSince then
    if s1.candidate ≠ s1.current then
      (⟨s1.candidate, s1.candidate, s1.candidateSince⟩, true)
    else (s1, false)
  else (s1, false)

/-- Frame metrics handed to the classifier: the dBFS value of line 103 and
the three band energies of lines 131-134 (the RMS/FFT numeric computations
themselves are the metric engine's; the classifier only compares these
values). -/
structure Metrics where
  db : ℚ
  eLow : ℚ
  eMid : ℚ
  eHigh : ℚ
  deriving DecidableEq, Repr

/-- One `status_callback(status, db, update_full_status)` invocation. -/
structure SinkCall where
  msg : String
  value : ℚ
  fullUpdate : Bool
  deriving DecidableEq, Repr

/-- The worker's long-lived state: `silent_stream_start_time` plus the
debounce state. -/
structure WState where
  silentSince : Option ℚ
  deb : DState
  deriving DecidableEq, Repr

/-- The state set up at the top of `_analysis_worker` (lines 88-91). -/
def initState (t : ℚ) : WState :=
  ⟨some t, ⟨Status.INITIALIZING, Status.INITIALIZING, t⟩⟩

/-- The message of the committed full-status notification, lines 190-193:
`"CHECK PROFILE"` is rendered as the AirPods hint, every other status as
its own string. -/
def fullMsg (st : Status) : String :=
  if st = Status.CHECK_PROFILE then "Set AirPods to HSP/HFP Profile" else statusMsg st

/-- Processing of one dequeued chunk, lines 95-193 of `audio_analyzer.py`:
emit the continuous (non-full) dB update for the current status
(line 106), run the classifier, then the debounce machine; a committed
change additionally emits the full status notification.  If the chunk body
raised (only the clarity divisions can), the statements after the raise
are skipped: the silence state (an attribute mutated before the raise)
keeps its update, the debounce locals keep their old values, only the
continuous update has reached the sink, and the exception text is handed
back for the worker's `except` clause. -/
def processFrame (w : WState) (m : Metrics) (now : ℚ) :
    WState × List SinkCall × Option String :=
  let contCall : SinkCall := ⟨statusMsg w.deb.current, m.db, false⟩
  let c := classifyChunk w.silentSince now m.db m.eLow m.eMid m.eHigh DEBUG_CLARITY
  match c.2 with
  | Except.error e => (⟨c.1, w.deb⟩, [contCall], some e)
  | Except.ok raw =>
      let d := debounceStep w.deb raw now now
      if d.2 then
        (⟨c.1, d.1⟩, [contCall, ⟨fullMsg d.1.current, m.db, true⟩], none)
      else (⟨c.1, d.1⟩, [contCall], none)

/-- One pass through the worker's `while self.running` loop body: either a
chunk was dequeued (with its metrics and the current time), the 1 s
`queue.get` timeout fired (`queue.Empty` — line 195), or an unexpected
exception was raised (line 197). -/
inductive WorkerEvent where
  | frame (m : Metrics) (now : ℚ)
  | timeoutEmpty
  | exc (msg : String)

/-- One worker-loop iteration: returns the new state, the
`status_callback` invocations, and the console lines printed.
`queue.Empty` is a bare `continue`; any other exception is printed as
`"Error in worker thread: ..."` and the loop continues. -/
def workerStep (w : WState) (ev : WorkerEvent) :
    WState × List SinkCall × List String :=
  match ev with
  | WorkerEvent.frame m now =>
      let r := processFrame w m now
      match r.2.2 with
      | some e => (r.1, r.2.1, ["Error in worker thread: " ++ e])
      | none => (r.1, r.2.1, [])
  | WorkerEvent.timeoutEmpty => (w, [], [])
  | WorkerEvent.exc e => (w, [], ["Error in worker thread: " ++ e])

/-- The worker loop over a finite schedule of iterations, accumulating all
sink notifications and console output in order. -/
def workerRun (w : WState) : List WorkerEvent → WState × List SinkCall × List String
  | [] => (w, [], [])
  | ev :: rest =>
      let r1 := workerStep w ev
      let r2 := workerRun r1.1 rest
      (r2.1, r1.2.1 ++ r2.2.1, r1.2.2 ++ r2.2.2)

/-- `queue.Queue()` (line 67) with `put` (line 85): an unbounded FIFO; a
`put` appends the frame and never blocks or drops.  Frames are abstract
(`β` stands for the copied `indata` buffer). -/
def audioQueuePut {β : Type} (q : List β) (f : β) : List β :=
  q ++ [f]

/-- The silence-duration stage run over a list of `(db, now)` frames,
threading `silent_stream_start_time` and recording for each frame whether
the stage produced the `"CHECK PROFILE"` raw label. -/
def silenceRun (st : Option ℚ) : List (ℚ × ℚ) → Option ℚ × List Bool
  | [] => (st, [])
  | f :: rest =>
      let s1 := silenceStep st f.1 f.2
      let r := silenceRun s1.1 rest
      (r.1, s1.2 :: r.2)

/-- The persistence-duration selection as the spec words it (§4.4, step 2):
attack for `TooQuiet → Good` and `Good → TooLoud`, decay for
`Good → TooQuiet`, normal for every other pair.  Written from the spec's
words, to be compared with `persistenceNeeded`, which is written from the
code. -/
def persistenceSpecDuration (cur cand : Status) : ℚ :=
  if (cur = Status.TOO_QUIET ∧ cand = Status.GOOD) ∨
     (cur = Status.GOOD ∧ cand = Status.TOO_LOUD) then 0.1
  else if cur = Status.GOOD ∧ cand = Status.TOO_QUIET then 3
  else 1.0

/-- `np.fft.fftfreq(N, d)` returns `v / (d*N)` where
`v = [0, 1, ..., (N-1)//2, -(N//2), ..., -1]`; this is the integer `v` at
index `k`. -/
def fftfreqVal (N k : ℕ) : ℤ :=
  if k < (N + 1) / 2 then (k : ℤ) else (k : ℤ) - N

/-- The frequency of FFT bin `k` for `N` samples at sample rate `sr`:
`fftfreq(N, 1/sr)[k] = v * sr / N`. -/
noncomputable def fftfreq (N : ℕ) (sr : ℝ) (k : ℕ) : ℝ :=
  (fftfreqVal N k : ℝ) * sr / N

/-- The discrete Fourier transform used by `scipy.fft.fft` (line 129):
`X[k] = Σ_j x[j]·exp(-2πi·k·j/N)`. -/
noncomputable def dft (N : ℕ) (x : Fin N → ℝ) (k : ℕ) : ℂ :=
  ∑ j : Fin N, (x j : ℂ) *
    Complex.exp (-2 * Real.pi * Complex.I * (k : ℂ) * ((j : ℕ) : ℂ) / N)

/-- `yf = np.abs(fft(float_data))` at bin `k` (line 129). -/
noncomputable def dftMag (N : ℕ) (x : Fin N → ℝ) (k : ℕ) : ℝ :=
  Complex.abs (dft N x k)

/-- `energy[band] = np.sum(yf[band_indices])` where `band_indices` selects
the bins whose `fftfreq` value lies in the inclusive range `[lo, hi]`
(lines 132-134). -/
noncomputable def bandEnergy (N : ℕ) (x : Fin N → ℝ) (sr lo hi : ℝ) : ℝ :=
  ∑ k : Fin N, if lo ≤ fftfreq N sr k ∧ fftfreq N sr k ≤ hi
    then dftMag N x k else 0

/-- `total_energy = sum(energy.values())` over the `FREQ_BANDS`
low = (60, 250), mid = (250, 2000), high = (2000, 8000) (lines 35-39,
136). -/
noncomputable def totalBandEnergy (N : ℕ) (x : Fin N → ℝ) (sr : ℝ) : ℝ :=
  bandEnergy N x sr 60 250 + bandEnergy N x sr 250 2000 +
    bandEnergy N x sr 2000 8000

/-- `low_percent = energy["low"] / total_energy` (line 169). -/
noncomputable def lowPercent (N : ℕ) (x : Fin N → ℝ) (sr : ℝ) : ℝ :=
  bandEnergy N x sr 60 250 / totalBandEnergy N x sr

/-- `high_percent = energy["high"] / total_energy` (line 170). -/
noncomputable def highPercent (N : ℕ) (x : Fin N → ℝ) (sr : ℝ) : ℝ :=
  bandEnergy N x sr 2000 8000 / totalBandEnergy N x sr

/-! ## Helper lemmas -/

/-- Closed form of the clarity stage: it never raises, and its label is
the `MUFFLED` / `TINNY` / `GOOD` decision only when the total band energy
is positive and the debug flag is off. -/
theorem clarityStage_eq {α : Type} [LinearOrderedField α] (d : Bool) (a b c : α) :
    clarityStage d a b c =
      Except.ok (if 0 < a + b + c then
                   if d then Status.GOOD
                   else if c / (a + b + c) < muffledHighPercent α then Status.MUFFLED
                   else if a / (a + b + c) < tinnyLowPercent α then Status.TINNY
                   else Status.GOOD
                 else Status.GOOD) := by
  by_cases hT : 0 < a + b + c
  · have hne : a + b + c ≠ 0 := ne_of_gt hT
    cases d with
    | true => simp [clarityStage, hT]
    | false =>
        simp only [clarityStage, fdiv, hT, if_true, if_pos, Bool.false_eq_true, if_false,
          if_neg hne, Bind.bind, Except.bind]
        split_ifs <;> rfl
  · simp [clarityStage, hT]

/-- The raw chunk label always exists (no worker-loop exception arises
from classification) and is never `INITIALIZING`. -/
theorem classifyChunk_spec (silSt : Option ℚ) (now db a b c : ℚ) (dbg : Bool) :
    ∃ raw, (classifyChunk silSt now db a b c dbg).2 = Except.ok raw ∧
      (raw = Status.CHECK_PROFILE ∨ raw = Status.TOO_QUIET ∨ raw = Status.TOO_LOUD ∨
       raw = Status.GOOD ∨ raw = Status.MUFFLED ∨ raw = Status.TINNY) := by
  simp only [classifyChunk]
  split
  · exact ⟨Status.CHECK_PROFILE, rfl, by simp⟩
  · split
    · exact ⟨Status.TOO_QUIET, rfl, by simp⟩
    · split
      · exact ⟨Status.TOO_LOUD, rfl, by simp⟩
      · refine ⟨_, clarityStage_eq dbg a b c, ?_⟩
        split
        · split
          · simp
          · split
            · simp
            · split <;> simp
        · simp

/-- Structure of one debounce step: the candidate always becomes the raw
label, the candidate timestamp is reset exactly when the raw label
differs from the previous candidate, and a commit happens exactly when
the selected persistence duration has elapsed and the candidate differs
from the current status. -/
theorem debounceStep_spec (s : DState) (raw : Status) (t1 t2 : ℚ) :
    (debounceStep s raw t1 t2).1.candidate = raw ∧
    (debounceStep s raw t1 t2).1.candidateSince =
      (if raw = s.candidate then s.candidateSince else t1) ∧
    ((debounceStep s raw t1 t2).2 = true ↔
      (persistenceNeeded s.current raw ≤
         t2 - (debounceStep s raw t1 t2).1.candidateSince ∧ raw ≠ s.current)) ∧
    ((debounceStep s raw t1 t2).2 = true →
      (debounceStep s raw t1 t2).1.current = raw) ∧
    ((debounceStep s raw t1 t2).2 = false →
      (debounceStep s raw t1 t2).1.current = s.current) := by
  by_cases hr : raw = s.candidate
  · simp only [debounceStep, hr, ne_eq, not_true_eq_false, if_false, ite_self]
    by_cases hp : persistenceNeeded s.current s.candidate ≤ t2 - s.candidateSince
    · by_cases hc : s.candidate = s.current
      · simp [hp, hc, hr]
      · simp [hp, hc, hr]
    · by_cases hc : s.candidate = s.current
      · simp [hp, hc, hr]
      · simp [hp, hc, hr]
  · simp only [debounceStep, hr, ne_eq, not_false_eq_true, if_true]
    by_cases hp : persistenceNeeded s.current raw ≤ t2 - t1
    · by_cases hc : raw = s.current
      · simp [hp, hc, hr]
      · simp [hp, hc, hr]
    · by_cases hc : raw = s.current
      · simp [hp, hc, hr]
      · simp [hp, hc, hr]

/-- `persistenceNeeded` only takes the three configured values. -/
theorem persistenceNeeded_cases (cur pot : Status) :
    persistenceNeeded cur pot = PERSISTENCE_ATTACK ∨
    persistenceNeeded cur pot = PERSISTENCE_DECAY ∨
    persistenceNeeded cur pot = PERSISTENCE_NORMAL := by
  unfold persistenceNeeded
  split
  · exact Or.inl rfl
  · split
    · exact Or.inr (Or.inl rfl)
    · exact Or.inr (Or.inr rfl)

/-! ## Claims -/

/-- C4: the debounce persistence duration is selected by the
(current, candidate) pair: the attack duration (0.1 s) for
`TOO QUIET → GOOD` and `GOOD → TOO LOUD`, the decay duration (3 s) for
`GOOD → TOO QUIET`, and the normal duration (1.0 s) for every other pair
(including every transition touching `CHECK PROFILE`, `MUFFLED`,
`TINNY`). -/
theorem c4_persistence_selection :
    (∀ cur cand, persistenceNeeded cur cand = persistenceSpecDuration cur cand) ∧
    PERSISTENCE_ATTACK = 0.1 ∧ PERSISTENCE_DECAY = 3 ∧ PERSISTENCE_NORMAL = 1.0 :=
  ⟨fun _ _ => rfl, rfl, rfl, rfl⟩

/-- C7: a frame with zero total band energy skips the spectral clarity
stage and keeps the `GOOD` label, and the classification path never
raises a division-by-zero (`clarityStage` always returns `Except.ok`). -/
theorem c7_zero_energy_skipped (d : Bool) (eL eM eH : ℚ) (h : eL + eM + eH = 0) :
    clarityStage d eL eM eH = Except.ok Status.GOOD ∧
    ∀ (d2 : Bool) (a b c : ℚ), ∃ st, clarityStage d2 a b c = Except.ok st := by
  constructor
  · rw [clarityStage_eq, h]
    simp
  · intro d2 a b c
    exact ⟨_, clarityStage_eq d2 a b c⟩

/-- Witness for C7 at the all-zero frame. -/
theorem c7_zero_energy_skipped_witness :
    ((0 : ℚ) + 0 + 0 = 0) ∧
    (clarityStage false (0 : ℚ) 0 0 = Except.ok Status.GOOD ∧
     ∀ (d2 : Bool) (a b c : ℚ), ∃ st, clarityStage d2 a b c = Except.ok st) :=
  ⟨by norm_num, c7_zero_energy_skipped false 0 0 0 (by norm_num)⟩

/-- C3 counterexample: with the configured `DEBUG_CLARITY = True`, a
frame in the `GOOD` dB range with positive total band energy and a
high-band fraction below the muffled threshold (here 0 < 0.04) keeps the
raw label `GOOD` instead of `MUFFLED`: the debug branch never applies the
`MUFFLED`/`TINNY` relabels. -/
theorem c3_clarity_counterexample :
    DEBUG_CLARITY = true ∧
    QUIET_DB_THRESHOLD ≤ (-10 : ℚ) ∧ (-10 : ℚ) ≤ LOUD_DB_THRESHOLD ∧
    (0 : ℚ) < 1 + 1 + 0 ∧ (0 : ℚ) / (1 + 1 + 0) < muffledHighPercent ℚ ∧
    (classifyChunk none 0 (-10) 1 1 0 DEBUG_CLARITY).2 = Except.ok Status.GOOD := by
  refine ⟨rfl, by norm_num [QUIET_DB_THRESHOLD], by norm_num [LOUD_DB_THRESHOLD],
    by norm_num, by norm_num [muffledHighPercent], ?_⟩
  norm_num [classifyChunk, silenceStep, clarityStage, QUIET_DB_THRESHOLD,
    LOUD_DB_THRESHOLD, DEBUG_CLARITY]

/-- C3 amended: when the debug-clarity flag is off, a frame whose dB lies
between the quiet (-20 dB) and loud (-9 dB) thresholds and whose total
band energy is positive is labeled `MUFFLED` if the high-band fraction is
below 0.04, else `TINNY` if the low-band fraction is below 0.10, else
`GOOD`; with the flag on (the configured value) the stage always yields
`GOOD`. -/
theorem c3_clarity_amended (silSt : Option ℚ) (now db eL eM eH : ℚ)
    (hq : QUIET_DB_THRESHOLD ≤ db) (hl : db ≤ LOUD_DB_THRESHOLD)
    (hT : 0 < eL + eM + eH) :
    (classifyChunk silSt now db eL eM eH false).2 =
      Except.ok (if eH / (eL + eM + eH) < muffledHighPercent ℚ then Status.MUFFLED
                 else if eL / (eL + eM + eH) < tinnyLowPercent ℚ then Status.TINNY
                 else Status.GOOD) ∧
    (classifyChunk silSt now db eL eM eH true).2 = Except.ok Status.GOOD := by
  have hs : (silenceStep silSt db now).2 = false := by
    cases silSt with
    | none => rfl
    | some t0 =>
        have hlt : SILENT_STREAM_THRESHOLD_DB < db := by
          have : SILENT_STREAM_THRESHOLD_DB < QUIET_DB_THRESHOLD := by
            norm_num [SILENT_STREAM_THRESHOLD_DB, QUIET_DB_THRESHOLD]
          linarith
        simp [silenceStep, hlt]
  have h1 : ¬ db < QUIET_DB_THRESHOLD := not_lt.mpr hq
  have h2 : ¬ LOUD_DB_THRESHOLD < db := not_lt.mpr hl
  constructor
  · simp only [classifyChunk, hs, Bool.false_eq_true, if_false, h1, h2]
    rw [clarityStage_eq]
    simp [hT]
  · simp only [classifyChunk, hs, Bool.false_eq_true, if_false, h1, h2]
    rw [clarityStage_eq]
    simp [hT]

/-- Witness for the amended C3 at a concrete balanced frame. -/
theorem c3_clarity_amended_witness :
    (QUIET_DB_THRESHOLD ≤ (-10 : ℚ)) ∧ ((-10 : ℚ) ≤ LOUD_DB_THRESHOLD) ∧
    ((0 : ℚ) < 1 + 1 + 1) ∧
    ((classifyChunk none 0 (-10) 1 1 1 false).2 =
      Except.ok (if (1 : ℚ) / (1 + 1 + 1) < muffledHighPercent ℚ then Status.MUFFLED
                 else if (1 : ℚ) / (1 + 1 + 1) < tinnyLowPercent ℚ then Status.TINNY
                 else Status.GOOD) ∧
     (classifyChunk none 0 (-10) 1 1 1 true).2 = Except.ok Status.GOOD) :=
  ⟨by norm_num [QUIET_DB_THRESHOLD], by norm_num [LOUD_DB_THRESHOLD], by norm_num,
   c3_clarity_amended none 0 (-10) 1 1 1 (by norm_num [QUIET_DB_THRESHOLD])
     (by norm_num [LOUD_DB_THRESHOLD]) (by norm_num)⟩

/-- C1: per processed frame, `current_ui_status` changes only when the
(post-reset) candidate differs from it and the selected persistence
duration for the (current, candidate) pair has elapsed since the
candidate timestamp — and whenever the displayed status is left
unchanged, the sink receives exactly the single continuous (non-full)
metric update. -/
theorem c1_commit_gate (w : WState) (m : Metrics) (now : ℚ) :
    ((processFrame w m now).1.deb.current ≠ w.deb.current →
      (processFrame w m now).1.deb.candidate ≠ w.deb.current ∧
      persistenceNeeded w.deb.current (processFrame w m now).1.deb.candidate ≤
        now - (processFrame w m now).1.deb.candidateSince ∧
      (processFrame w m now).1.deb.current = (processFrame w m now).1.deb.candidate) ∧
    ((processFrame w m now).1.deb.current = w.deb.current →
      (processFrame w m now).2.1 = [⟨statusMsg w.deb.current, m.db, false⟩]) := by
  obtain ⟨raw, hraw, -⟩ :=
    classifyChunk_spec w.silentSince now m.db m.eLow m.eMid m.eHigh DEBUG_CLARITY
  obtain ⟨hcand, hsince, hiff, hct, hcf⟩ := debounceStep_spec w.deb raw now now
  by_cases hb : (debounceStep w.deb raw now now).2 = true
  · have hcur := hct hb
    obtain ⟨hper, hne⟩ := hiff.mp hb
    simp only [processFrame, hraw, hb, if_true]
    constructor
    · intro _
      refine ⟨?_, ?_, ?_⟩
      · simpa [hcand, hcur] using hne
      · simpa [hcand] using hper
      · simp [hcand, hcur]
    · intro hfix
      exact absurd (hcur ▸ hfix) hne
  · have hb2 : (debounceStep w.deb raw now now).2 = false := by
      simpa using hb
    have hcur := hcf hb2
    simp only [processFrame, hraw, hb2, Bool.false_eq_true, if_false]
    constructor
    · intro hch
      exact absurd hcur hch
    · intro _
      trivial

/-- Witness for C1 at a concrete frame. -/
theorem c1_commit_gate_witness :
    ((processFrame (initState 0) (Metrics.mk (-10) 1 1 1) 5).1.deb.current ≠
        (initState 0).deb.current →
      (processFrame (initState 0) (Metrics.mk (-10) 1 1 1) 5).1.deb.candidate ≠
        (initState 0).deb.current ∧
      persistenceNeeded (initState 0).deb.current
          (processFrame (initState 0) (Metrics.mk (-10) 1 1 1) 5).1.deb.candidate ≤
        5 - (processFrame (initState 0) (Metrics.mk (-10) 1 1 1) 5).1.deb.candidateSince ∧
      (processFrame (initState 0) (Metrics.mk (-10) 1 1 1) 5).1.deb.current =
        (processFrame (initState 0) (Metrics.mk (-10) 1 1 1) 5).1.deb.candidate) ∧
    ((processFrame (initState 0) (Metrics.mk (-10) 1 1 1) 5).1.deb.current =
        (initState 0).deb.current →
      (processFrame (initState 0) (Metrics.mk (-10) 1 1 1) 5).2.1 =
        [⟨statusMsg (initState 0).deb.current, (Metrics.mk (-10) 1 1 1).db, false⟩]) :=
  c1_commit_gate (initState 0) (Metrics.mk (-10) 1 1 1) 5

/-- C5: a one-frame blip — the previous candidate label `L`, a deviant
raw label `D` for a single frame, then `L` again — never commits a status
change to `D`, provided every configured persistence duration exceeds the
frame period `p` (and the in-frame gap between candidate reset and commit
check is at most `p`). -/
theorem c5_blip_never_commits (s : DState) (D L : Status) (p t1 t2 u1 u2 : ℚ)
    (hDL : D ≠ L) (hcand : s.candidate = L) (hframe : t2 - t1 ≤ p)
    (hA : p < PERSISTENCE_ATTACK) (hN : p < PERSISTENCE_NORMAL)
    (hD2 : p < PERSISTENCE_DECAY) :
    (debounceStep s D t1 t2).2 = false ∧
    (debounceStep s D t1 t2).1.current = s.current ∧
    ((debounceStep (debounceStep s D t1 t2).1 L u1 u2).1.current = s.current ∨
     (debounceStep (debounceStep s D t1 t2).1 L u1 u2).1.current = L) ∧
    (s.current ≠ D →
      (debounceStep s D t1 t2).1.current ≠ D ∧
      (debounceStep (debounceStep s D t1 t2).1 L u1 u2).1.current ≠ D) := by
  obtain ⟨hc1, hs1, hiff1, hct1, hcf1⟩ := debounceStep_spec s D t1 t2
  have hneq : ¬ D = s.candidate := by rw [hcand]; exact hDL
  have hsince : (debounceStep s D t1 t2).1.candidateSince = t1 := by
    rw [hs1, if_neg hneq]
  have hno : (debounceStep s D t1 t2).2 = false := by
    rcases Bool.eq_false_or_eq_true (debounceStep s D t1 t2).2 with h | h
    · exfalso
      obtain ⟨hper, -⟩ := hiff1.mp h
      rw [hsince] at hper
      rcases persistenceNeeded_cases s.current D with hcase | hcase | hcase <;>
        rw [hcase] at hper <;> linarith
    · exact h
  have hcur1 := hcf1 hno
  obtain ⟨hc2, -, -, hct2, hcf2⟩ :=
    debounceStep_spec (debounceStep s D t1 t2).1 L u1 u2
  have hsecond :
      (debounceStep (debounceStep s D t1 t2).1 L u1 u2).1.current = s.current ∨
      (debounceStep (debounceStep s D t1 t2).1 L u1 u2).1.current = L := by
    rcases Bool.eq_false_or_eq_true
        (debounceStep (debounceStep s D t1 t2).1 L u1 u2).2 with h2 | h2
    · right
      exact hct2 h2
    · left
      rw [hcf2 h2, hcur1]
  refine ⟨hno, hcur1, hsecond, ?_⟩
  intro hsD
  constructor
  · rw [hcur1]; exact hsD
  · rcases hsecond with h | h
    · rw [h]; exact hsD
    · rw [h]; exact fun hLD => hDL hLD.symm

/-- Witness for C5 at a concrete blip (`GOOD` state, one `TOO LOUD`
frame, frame period 1/20 s). -/
theorem c5_blip_never_commits_witness :
    (Status.TOO_LOUD ≠ Status.GOOD) ∧
    ((DState.mk Status.GOOD Status.GOOD 0).candidate = Status.GOOD) ∧
    ((21 / 20 : ℚ) - 1 ≤ 1 / 20) ∧ ((1 / 20 : ℚ) < PERSISTENCE_ATTACK) ∧
    ((1 / 20 : ℚ) < PERSISTENCE_NORMAL) ∧ ((1 / 20 : ℚ) < PERSISTENCE_DECAY) ∧
    ((debounceStep (DState.mk Status.GOOD Status.GOOD 0) Status.TOO_LOUD 1 (21 / 20)).2 = false ∧
     (debounceStep (DState.mk Status.GOOD Status.GOOD 0) Status.TOO_LOUD 1 (21 / 20)).1.current =
       (DState.mk Status.GOOD Status.GOOD 0).current ∧
     ((debounceStep (debounceStep (DState.mk Status.GOOD Status.GOOD 0) Status.TOO_LOUD 1 (21 / 20)).1
          Status.GOOD (11 / 10) (23 / 20)).1.current =
        (DState.mk Status.GOOD Status.GOOD 0).current ∨
      (debounceStep (debounceStep (DState.mk Status.GOOD Status.GOOD 0) Status.TOO_LOUD 1 (21 / 20)).1
          Status.GOOD (11 / 10) (23 / 20)).1.current = Status.GOOD) ∧
     ((DState.mk Status.GOOD Status.GOOD 0).current ≠ Status.TOO_LOUD →
       (debounceStep (DState.mk Status.GOOD Status.GOOD 0) Status.TOO_LOUD 1 (21 / 20)).1.current ≠
         Status.TOO_LOUD ∧
       (debounceStep (debounceStep (DState.mk Status.GOOD Status.GOOD 0) Status.TOO_LOUD 1 (21 / 20)).1
           Status.GOOD (11 / 10) (23 / 20)).1.current ≠ Status.TOO_LOUD)) :=
  ⟨by decide, rfl, by norm_num, by norm_num [PERSISTENCE_ATTACK],
   by norm_num [PERSISTENCE_NORMAL], by norm_num [PERSISTENCE_DECAY],
   c5_blip_never_commits (DState.mk Status.GOOD Status.GOOD 0) Status.TOO_LOUD Status.GOOD
     (1 / 20) 1 (21 / 20) (11 / 10) (23 / 20) (by decide) rfl (by norm_num)
     (by norm_num [PERSISTENCE_ATTACK]) (by norm_num [PERSISTENCE_NORMAL])
     (by norm_num [PERSISTENCE_DECAY])⟩

/-- After the silence stage is cleared (`silent_stream_start_time = None`)
it never produces `CHECK PROFILE` again: the source contains no statement
re-arming the timestamp. -/
theorem silenceRun_cleared (fs : List (ℚ × ℚ)) :
    silenceRun none fs = (none, fs.map fun _ => false) := by
  induction fs with
  | nil => rfl
  | cons f rest ih => simp [silenceRun, silenceStep, ih]

/-- C2 amended: the silence stage emits `CHECK PROFILE` on a frame exactly
when every frame so far (this one included) has been at or below the
−60 dB floor and more than the configured 3 s have passed since stream
start; a single frame above the floor clears the condition permanently —
the stage never re-arms for the rest of the session. -/
theorem c2_silence_amended (t0 db t : ℚ) (fs : List (ℚ × ℚ)) :
    (silenceRun (some t0) (fs ++ [(db, t)])).2 =
      (silenceRun (some t0) fs).2 ++
        [decide ((∀ f ∈ fs, f.1 ≤ SILENT_STREAM_THRESHOLD_DB) ∧
                 db ≤ SILENT_STREAM_THRESHOLD_DB ∧
                 SILENT_STREAM_DURATION_S < t - t0)] := by
  induction fs with
  | nil =>
      by_cases h1 : SILENT_STREAM_THRESHOLD_DB < db
      · simp [silenceRun, silenceStep, h1, not_le.mpr h1]
      · by_cases h2 : SILENT_STREAM_DURATION_S < t - t0
        · simp [silenceRun, silenceStep, h1, h2, not_lt.mp h1]
        · simp [silenceRun, silenceStep, h1, h2, not_lt.mp h1]
  | cons f rest ih =>
      by_cases h1 : SILENT_STREAM_THRESHOLD_DB < f.1
      · have hstep : silenceStep (some t0) f.1 f.2 = (none, false) := by
          simp [silenceStep, h1]
        have hdec : ¬ ((∀ g ∈ f :: rest, g.1 ≤ SILENT_STREAM_THRESHOLD_DB) ∧
            db ≤ SILENT_STREAM_THRESHOLD_DB ∧
            SILENT_STREAM_DURATION_S < t - t0) := by
          rintro ⟨hall, -⟩
          exact absurd (hall f (List.mem_cons_self f rest)) (not_le.mpr h1)
        simp [silenceRun, hstep, silenceRun_cleared, List.map_append,
          decide_eq_false hdec]
      · have hstep : (silenceStep (some t0) f.1 f.2).1 = some t0 := by
          by_cases h2 : SILENT_STREAM_DURATION_S < f.2 - t0 <;>
            simp [silenceStep, h1, h2]
        have hdec : decide ((∀ g ∈ f :: rest, g.1 ≤ SILENT_STREAM_THRESHOLD_DB) ∧
              db ≤ SILENT_STREAM_THRESHOLD_DB ∧
              SILENT_STREAM_DURATION_S < t - t0) =
            decide ((∀ g ∈ rest, g.1 ≤ SILENT_STREAM_THRESHOLD_DB) ∧
              db ≤ SILENT_STREAM_THRESHOLD_DB ∧
              SILENT_STREAM_DURATION_S < t - t0) := by
          apply decide_eq_decide.mpr
          simp [List.forall_mem_cons, not_lt.mp h1]
        simp only [List.cons_append, silenceRun, hstep, hdec, List.append_eq]
        rw [ih]

/-- C2 counterexample: a 3.5 s silence run from stream start triggers
(first flag), one loud frame clears the stage, and a fresh continuous
silence run of 3.5 s (> 3 s, frames at t = 5, 6, 8.5) does NOT trigger
again: the stage has no re-arm path, contradicting the claimed
re-triggering after a fresh full-duration silence run. -/
theorem c2_silence_counterexample :
    (silenceRun (some 0) [(-70, 7 / 2), (-30, 4), (-70, 5), (-70, 6), (-70, 17 / 2)]).2 =
      [true, false, false, false, false] ∧
    ((-70 : ℚ) ≤ SILENT_STREAM_THRESHOLD_DB) ∧
    (SILENT_STREAM_DURATION_S < (17 / 2 : ℚ) - 5) := by
  refine ⟨?_, by norm_num [SILENT_STREAM_THRESHOLD_DB],
    by norm_num [SILENT_STREAM_DURATION_S]⟩
  norm_num [silenceRun, silenceStep, SILENT_STREAM_THRESHOLD_DB,
    SILENT_STREAM_DURATION_S]

/-- C8 counterexample: on an unexpected exception the worker sends
NOTHING to the status sink (no terminal `Error` status); it only prints
`"Error in worker thread: ..."` to the console. -/
theorem c8_exception_counterexample :
    (workerStep (initState 0) (WorkerEvent.exc "boom")).2.1 = [] ∧
    (workerStep (initState 0) (WorkerEvent.exc "boom")).2.2 =
      ["Error in worker thread: boom"] :=
  ⟨rfl, rfl⟩

/-- C8 amended: every unexpected exception raised while processing a
frame is caught at the loop boundary and logged once to the console (not
reported to the status sink), and the worker continues with the
subsequent events exactly as if the failing iteration had not happened. -/
theorem c8_exception_amended (w : WState) (e : String) (rest : List WorkerEvent) :
    workerRun w (WorkerEvent.exc e :: rest) =
      ((workerRun w rest).1, (workerRun w rest).2.1,
        ("Error in worker thread: " ++ e) :: (workerRun w rest).2.2) := by
  simp [workerRun, workerStep]

/-- The new worker state after a frame event is the `processFrame` state,
whether or not the frame raised. -/
theorem workerStep_frame_state (w : WState) (m : Metrics) (now : ℚ) :
    (workerStep w (WorkerEvent.frame m now)).1 = (processFrame w m now).1 := by
  cases hx : (processFrame w m now).2.2 <;> simp [workerStep, hx]

/-- Within one frame, `current_ui_status` either keeps its old value or
becomes the (never-`INITIALIZING`) raw label. -/
theorem processFrame_current_cases (w : WState) (m : Metrics) (now : ℚ) :
    (processFrame w m now).1.deb.current = w.deb.current ∨
    (processFrame w m now).1.deb.current ≠ Status.INITIALIZING := by
  obtain ⟨raw, hraw, hcases⟩ :=
    classifyChunk_spec w.silentSince now m.db m.eLow m.eMid m.eHigh DEBUG_CLARITY
  obtain ⟨hcand, -, -, hct, hcf⟩ := debounceStep_spec w.deb raw now now
  by_cases hb : (debounceStep w.deb raw now now).2 = true
  · right
    have hcur := hct hb
    simp only [processFrame, hraw, hb, if_true]
    rcases hcases with h | h | h | h | h | h <;> subst h <;> simp [hcur]
  · left
    have hb2 : (debounceStep w.deb raw now now).2 = false := by simpa using hb
    have hcur := hcf hb2
    simp only [processFrame, hraw, hb2, Bool.false_eq_true, if_false]
    exact hcur

/-- C10: the raw per-frame label is always one of `CHECK PROFILE`,
`TOO QUIET`, `TOO LOUD`, `GOOD`, `MUFFLED`, `TINNY` — never
`INITIALIZING` — and consequently, once `current_ui_status` is not
`INITIALIZING` it never returns to `INITIALIZING` over any remaining
schedule of worker iterations. -/
theorem c10_no_return_to_initializing :
    (∀ (silSt : Option ℚ) (now db a b c : ℚ) (dbg : Bool) (st : Status),
      (classifyChunk silSt now db a b c dbg).2 = Except.ok st →
      (st = Status.CHECK_PROFILE ∨ st = Status.TOO_QUIET ∨ st = Status.TOO_LOUD ∨
       st = Status.GOOD ∨ st = Status.MUFFLED ∨ st = Status.TINNY) ∧
      st ≠ Status.INITIALIZING) ∧
    (∀ (w : WState) (evs : List WorkerEvent),
      w.deb.current ≠ Status.INITIALIZING →
      (workerRun w evs).1.deb.current ≠ Status.INITIALIZING) := by
  constructor
  · intro silSt now db a b c dbg st hst
    obtain ⟨raw, hraw, hcases⟩ := classifyChunk_spec silSt now db a b c dbg
    rw [hraw] at hst
    injection hst with h
    subst h
    refine ⟨hcases, ?_⟩
    rcases hcases with h | h | h | h | h | h <;> simp [h]
  · intro w evs
    induction evs generalizing w with
    | nil =>
        intro h
        exact h
    | cons ev rest ih =>
        intro h
        have hstep : (workerStep w ev).1.deb.current ≠ Status.INITIALIZING := by
          cases ev with
          | timeoutEmpty => exact h
          | exc e => exact h
          | frame m now =>
              rw [workerStep_frame_state]
              rcases processFrame_current_cases w m now with hsame | hne
              · rw [hsame]; exact h
              · exact hne
        have := ih (workerStep w ev).1 hstep
        simpa [workerRun] using this

/-- Witness for C10 at a concrete frame and a concrete schedule. -/
theorem c10_no_return_to_initializing_witness :
    ((classifyChunk none 0 (-10) 1 1 1 false).2 = Except.ok Status.GOOD) ∧
    ((Status.GOOD = Status.CHECK_PROFILE ∨ Status.GOOD = Status.TOO_QUIET ∨
      Status.GOOD = Status.TOO_LOUD ∨ Status.GOOD = Status.GOOD ∨
      Status.GOOD = Status.MUFFLED ∨ Status.GOOD = Status.TINNY) ∧
     Status.GOOD ≠ Status.INITIALIZING) ∧
    ((workerRun (WState.mk none (DState.mk Status.GOOD Status.GOOD 0))
        [WorkerEvent.timeoutEmpty]).1.deb.current ≠ Status.INITIALIZING) :=
  ⟨by norm_num [classifyChunk, clarityStage, silenceStep, fdiv, Bind.bind, Except.bind,
      QUIET_DB_THRESHOLD, LOUD_DB_THRESHOLD, muffledHighPercent, tinnyLowPercent],
   c10_no_return_to_initializing.1 none 0 (-10) 1 1 1 false Status.GOOD
     (by norm_num [classifyChunk, clarityStage, silenceStep, fdiv, Bind.bind, Except.bind,
        QUIET_DB_THRESHOLD, LOUD_DB_THRESHOLD, muffledHighPercent, tinnyLowPercent]),
   c10_no_return_to_initializing.2 (WState.mk none (DState.mk Status.GOOD Status.GOOD 0))
     [WorkerEvent.timeoutEmpty] (by decide)⟩

/-- Enqueuing onto the audio queue appends: after any enqueue sequence
starting from an empty queue, the queue holds exactly the enqueued frames
in FIFO order. -/
theorem audioQueue_foldl {β : Type} (acc fs : List β) :
    List.foldl audioQueuePut acc fs = acc ++ fs := by
  induction fs generalizing acc with
  | nil => simp
  | cons f rest ih => simp [audioQueuePut, ih]

/-- C6 counterexample: the frame queue is `queue.Queue()` with no
`maxsize` — no fixed capacity bounds the number of buffered frames: for
every claimed bound there is an enqueue sequence exceeding it. -/
theorem c6_queue_counterexample :
    ¬ ∃ C : ℕ, ∀ fs : List ℕ, (List.foldl audioQueuePut [] fs).length ≤ C := by
  rintro ⟨C, h⟩
  have h2 := h (List.replicate (C + 1) 0)
  rw [audioQueue_foldl] at h2
  simp at h2

/-- C6 amended: the frame queue is an unbounded FIFO: `put` appends the
frame (it never blocks — it is a total function — and never drops), so
after `n` enqueues from empty the queue holds exactly those `n` frames in
arrival order; no fixed capacity bounds its growth. -/
theorem c6_queue_amended {β : Type} (q : List β) (f : β) (fs : List β) :
    audioQueuePut q f = q ++ [f] ∧
    List.foldl audioQueuePut ([] : List β) fs = fs ∧
    (List.foldl audioQueuePut ([] : List β) fs).length = fs.length := by
  refine ⟨rfl, ?_, ?_⟩ <;> rw [audioQueue_foldl] <;> simp

/-- The DFT is homogeneous: scaling every sample scales every
coefficient. -/
theorem dft_smul (N : ℕ) (x : Fin N → ℝ) (c : ℝ) (k : ℕ) :
    dft N (fun j => c * x j) k = (c : ℂ) * dft N x k := by
  unfold dft
  rw [Finset.mul_sum]
  refine Finset.sum_congr rfl fun j _ => ?_
  push_cast
  ring

/-- Scaling every sample by `c` scales every magnitude by `|c|`. -/
theorem dftMag_smul (N : ℕ) (x : Fin N → ℝ) (c : ℝ) (k : ℕ) :
    dftMag N (fun j => c * x j) k = |c| * dftMag N x k := by
  unfold dftMag
  rw [dft_smul, map_mul]
  simp [Complex.abs_ofReal]

/-- Band energies scale by `|c|` under sample scaling. -/
theorem bandEnergy_smul (N : ℕ) (x : Fin N → ℝ) (sr c lo hi : ℝ) :
    bandEnergy N (fun j => c * x j) sr lo hi = |c| * bandEnergy N x sr lo hi := by
  unfold bandEnergy
  rw [Finset.mul_sum]
  refine Finset.sum_congr rfl fun k _ => ?_
  split
  · rw [dftMag_smul]
  · rw [mul_zero]

/-- The clarity decision is invariant under positive scaling of all three
band energies. -/
theorem clarityStage_smul {α : Type} [LinearOrderedField α] (d : Bool)
    (c a b e : α) (hc : 0 < c) :
    clarityStage d (c * a) (c * b) (c * e) = clarityStage d a b e := by
  have hsum : c * a + c * b + c * e = c * (a + b + e) := by ring
  rw [clarityStage_eq, clarityStage_eq]
  by_cases hT : 0 < a + b + e
  · have hTc : 0 < c * a + c * b + c * e := by
      rw [hsum]
      exact mul_pos hc hT
    have hdiv1 : c * e / (c * a + c * b + c * e) = e / (a + b + e) := by
      rw [hsum, mul_div_mul_left _ _ (ne_of_gt hc)]
    have hdiv2 : c * a / (c * a + c * b + c * e) = a / (a + b + e) := by
      rw [hsum, mul_div_mul_left _ _ (ne_of_gt hc)]
    rw [if_pos hTc, if_pos hT, hdiv1, hdiv2]
  · have hTc : ¬ 0 < c * a + c * b + c * e := by
      rw [hsum]
      intro hpos
      apply hT
      nlinarith
    rw [if_neg hTc, if_neg hT]

/-- C9: multiplying all samples by a positive constant `c` scales every
band energy by `c`, leaves `low_percent` and `high_percent` unchanged,
and leaves the clarity stage's outcome unchanged (for either value of the
debug flag). -/
theorem c9_scale_invariance (N : ℕ) (x : Fin N → ℝ) (sr c : ℝ) (hc : 0 < c) :
    (∀ lo hi, bandEnergy N (fun j => c * x j) sr lo hi =
      c * bandEnergy N x sr lo hi) ∧
    lowPercent N (fun j => c * x j) sr = lowPercent N x sr ∧
    highPercent N (fun j => c * x j) sr = highPercent N x sr ∧
    ∀ d : Bool,
      clarityStage d (bandEnergy N (fun j => c * x j) sr 60 250)
        (bandEnergy N (fun j => c * x j) sr 250 2000)
        (bandEnergy N (fun j => c * x j) sr 2000 8000) =
      clarityStage d (bandEnergy N x sr 60 250) (bandEnergy N x sr 250 2000)
        (bandEnergy N x sr 2000 8000) := by
  have habs : |c| = c := abs_of_pos hc
  have hbe : ∀ lo hi, bandEnergy N (fun j => c * x j) sr lo hi =
      c * bandEnergy N x sr lo hi := by
    intro lo hi
    rw [bandEnergy_smul, habs]
  have hfactor : c * bandEnergy N x sr 60 250 + c * bandEnergy N x sr 250 2000 +
      c * bandEnergy N x sr 2000 8000 =
      c * (bandEnergy N x sr 60 250 + bandEnergy N x sr 250 2000 +
        bandEnergy N x sr 2000 8000) := by ring
  refine ⟨hbe, ?_, ?_, ?_⟩
  · unfold lowPercent totalBandEnergy
    rw [hbe, hbe, hbe, hfactor, mul_div_mul_left _ _ (ne_of_gt hc)]
  · unfold highPercent totalBandEnergy
    rw [hbe, hbe, hbe, hfactor, mul_div_mul_left _ _ (ne_of_gt hc)]
  · intro d
    rw [hbe, hbe, hbe]
    exact clarityStage_smul d c _ _ _ hc

/-- Witness for C9 at a one-sample frame and `c = 2`. -/
theorem c9_scale_invariance_witness :
    (0 : ℝ) < 2 ∧
    ((∀ lo hi, bandEnergy 1 (fun j => 2 * (fun _ : Fin 1 => (1 : ℝ)) j) 48000 lo hi =
        2 * bandEnergy 1 (fun _ : Fin 1 => (1 : ℝ)) 48000 lo hi) ∧
     lowPercent 1 (fun j => 2 * (fun _ : Fin 1 => (1 : ℝ)) j) 48000 =
       lowPercent 1 (fun _ : Fin 1 => (1 : ℝ)) 48000 ∧
     highPercent 1 (fun j => 2 * (fun _ : Fin 1 => (1 : ℝ)) j) 48000 =
       highPercent 1 (fun _ : Fin 1 => (1 : ℝ)) 48000 ∧
     ∀ d : Bool,
       clarityStage d (bandEnergy 1 (fun j => 2 * (fun _ : Fin 1 => (1 : ℝ)) j) 48000 60 250)
         (bandEnergy 1 (fun j => 2 * (fun _ : Fin 1 => (1 : ℝ)) j) 48000 250 2000)
         (bandEnergy 1 (fun j => 2 * (fun _ : Fin 1 => (1 : ℝ)) j) 48000 2000 8000) =
       clarityStage d (bandEnergy 1 (fun _ : Fin 1 => (1 : ℝ)) 48000 60 250)
         (bandEnergy 1 (fun _ : Fin 1 => (1 : ℝ)) 48000 250 2000)
         (bandEnergy 1 (fun _ : Fin 1 => (1 : ℝ)) 48000 2000 8000)) :=
  ⟨two_pos, c9_scale_invariance 1 (fun _ : Fin 1 => (1 : ℝ)) 48000 2 two_pos⟩

end Checkmic
